import Mathlib

/-
Verification of the load-test harness in CSharpDemo/LoadTests/load-test.py.

The Python floats are modelled as exact rationals (ℚ).  Python's
`round(x, 2)` is modelled by `round2` below; exceptions raised by an
operation are modelled by `Option`/`Except` results.
-/

namespace LoadTest

/-- Python `round(x, 2)`: round to 2 decimal places.  (Python breaks exact
ties to even; Mathlib's `round` breaks them upward.  No statement below
depends on tie behaviour.) -/
def round2 (q : ℚ) : ℚ := ((round (q * 100) : ℤ) : ℚ) / 100

/-- The result of the underlying `requests.get` call inside `make_request`:
either a response with a status code, or a raised exception with a message. -/
inductive HttpResult where
  | response (status : ℤ)
  | exn (msg : String)
deriving DecidableEq

/-- The `status` field of the outcome dict: an integer status code, or the
string tag `error` used in the except branch. -/
inductive StatusField where
  | code (s : ℤ)
  | errorTag
deriving DecidableEq

/-- The dict returned by `make_request` (lines 39-51). -/
structure Outcome where
  success : Bool
  time : ℚ
  status : StatusField
  error : Option String := none
deriving DecidableEq

/-- `make_request` (load-test.py lines 33-51).  The elapsed wall-clock time
in milliseconds and the HTTP-layer result are inputs; the function body is
the try/except classification.  The bare `except Exception` branch means the
function returns an outcome dict in every case. -/
def make_request (r : HttpResult) (elapsed : ℚ) : Outcome :=
  match r with
  | .response s =>
      { success := s == 200, time := elapsed, status := .code s }
  | .exn e =>
      { success := false, time := elapsed, status := .errorTag, error := some e }

/-- `results.sort()` (line 88): sort ascending.  A stable comparison sort of
rationals; any correct sort yields the same value list. -/
def sortResults (l : List ℚ) : List ℚ := l.insertionSort (· ≤ ·)

/-- Python `min(results)` on a non-empty list (line 96); the `[]` case is
unreachable in the source (guarded by `if results:`). -/
def pyMin (l : List ℚ) : ℚ :=
  match l with
  | [] => 0
  | x :: xs => xs.foldl min x

/-- Python `max(results)` on a non-empty list (line 97). -/
def pyMax (l : List ℚ) : ℚ :=
  match l with
  | [] => 0
  | x :: xs => xs.foldl max x

/-- `statistics.mean(results)` (line 95): arithmetic mean. -/
def listMean (l : List ℚ) : ℚ := l.sum / l.length

/-- `int(len(results) * p)` (lines 98-100): the nearest-rank percentile
index.  `int` truncates toward zero, which on the non-negative product is
the floor. -/
def pctIndex (n : ℕ) (p : ℚ) : ℕ := (Int.floor ((n : ℚ) * p)).toNat

/-- `total / total_time` (line 94), before rounding. -/
def rawRps (total : ℤ) (total_time : ℚ) : ℚ := (total : ℚ) / total_time

/-- The `stats` dict built on lines 89-101. -/
structure Stats where
  total_requests : ℤ
  successful : ℤ
  failed : ℤ
  total_time_sec : ℚ
  requests_per_sec : ℚ
  avg_response_ms : ℚ
  min_response_ms : ℚ
  max_response_ms : ℚ
  p50_ms : ℚ
  p95_ms : ℚ
  p99_ms : ℚ
deriving DecidableEq

/-- The statistics reducer of `run_load_test` (lines 87-101, 121-123):
`if results:` build the stats dict from the sorted list, else return `None`.
Out-of-range indexing would raise in Python; `getD` is used because the
percentile indices are proved in range (`pctIndex_lt_length`). -/
def computeStats (total : ℤ) (errors : ℤ) (results : List ℚ) (total_time : ℚ) :
    Option Stats :=
  if results.isEmpty then none
  else
    some { total_requests := total
           successful := total - errors
           failed := errors
           total_time_sec := round2 total_time
           requests_per_sec := round2 (rawRps total total_time)
           avg_response_ms := round2 (listMean (sortResults results))
           min_response_ms := round2 (pyMin (sortResults results))
           max_response_ms := round2 (pyMax (sortResults results))
           p50_ms := round2 ((sortResults results).getD
             (pctIndex (sortResults results).length (0.50 : ℚ)) 0)
           p95_ms := round2 ((sortResults results).getD
             (pctIndex (sortResults results).length (0.95 : ℚ)) 0)
           p99_ms := round2 ((sortResults results).getD
             (pctIndex (sortResults results).length (0.99 : ℚ)) 0) }

/-- The run can fail before issuing any request only when
`ThreadPoolExecutor(max_workers=concurrent)` rejects a non-positive worker
count with `ValueError` (line 68). -/
inductive RunError where
  | poolValueError
deriving DecidableEq

/-- The per-request outcomes produced by the submitted futures
(lines 70-75): one `make_request` outcome per element of `range(total)`.
`request` assigns each submitted unit its outcome. -/
def outcomesOf (total : ℤ) (request : ℕ → Outcome) : List Outcome :=
  (List.range total.toNat).map request

/-- The `errors` counter (lines 63, 77-78): outcomes with `success` false. -/
def countErrors (l : List Outcome) : ℤ := (l.filter (fun o => !o.success)).length

/-- The `results` list (lines 62, 76): every completed outcome's `time`,
appended unconditionally, successes and failures alike. -/
def allTimes (total : ℤ) (request : ℕ → Outcome) : List ℚ :=
  (outcomesOf total request).map (fun o => o.time)

/-- `run_load_test` (lines 53-123), with the network behaviour abstracted
into `request` and the measured wall time into `total_time`.  There is no
configuration validation in the source: a non-positive `concurrent` makes
the pool constructor raise `ValueError`; any `total` simply drives
`range(total)`. -/
def run_load_test (concurrent total : ℤ) (request : ℕ → Outcome)
    (total_time : ℚ) : Except RunError (Option Stats) :=
  if concurrent ≤ 0 then Except.error RunError.poolValueError
  else Except.ok
    (computeStats total (countErrors (outcomesOf total request))
      (allTimes total request) total_time)

/-- The throughput comparison in `main` (lines 206-208):
`(candidate - baseline) / baseline * 100` on the `requests_per_sec` fields,
with the baseline (sync) as divisor.  The division is unguarded in the
source; `none` models the `ZeroDivisionError` Python raises when the
divisor is zero. -/
def throughput_delta_pct (baseline candidate : ℚ) : Option ℚ :=
  if baseline = 0 then none
  else some ((candidate - baseline) / baseline * 100)

/-- The average-latency comparison in `main` (lines 213-215):
`(baseline - candidate) / baseline * 100` on the `avg_response_ms` fields
(sign inverted relative to throughput: positive means the candidate is
faster).  `none` models the unguarded division's `ZeroDivisionError`. -/
def avg_latency_delta_pct (baseline candidate : ℚ) : Option ℚ :=
  if baseline = 0 then none
  else some ((baseline - candidate) / baseline * 100)

/- Helper lemmas about the embedded operations. -/

lemma foldl_min_le_init (xs : List ℚ) (x : ℚ) : xs.foldl min x ≤ x := by
  induction xs generalizing x with
  | nil => exact le_refl x
  | cons a as ih =>
      calc as.foldl min (min x a) ≤ min x a := ih _
        _ ≤ x := min_le_left _ _

lemma foldl_min_le_mem (xs : List ℚ) (x y : ℚ) (hy : y ∈ xs) :
    xs.foldl min x ≤ y := by
  induction xs generalizing x with
  | nil => cases hy
  | cons a as ih =>
      rcases List.mem_cons.mp hy with rfl | h
      · exact le_trans (foldl_min_le_init as _) (min_le_right _ _)
      · exact ih _ h

lemma foldl_min_mem (xs : List ℚ) (x : ℚ) :
    xs.foldl min x = x ∨ xs.foldl min x ∈ xs := by
  induction xs generalizing x with
  | nil => exact Or.inl rfl
  | cons a as ih =>
      rcases ih (min x a) with h | h
      · rcases min_choice x a with hm | hm
        · exact Or.inl (h.trans hm)
        · exact Or.inr (List.mem_cons.mpr (Or.inl (h.trans hm)))
      · exact Or.inr (List.mem_cons.mpr (Or.inr h))

lemma init_le_foldl_max (xs : List ℚ) (x : ℚ) : x ≤ xs.foldl max x := by
  induction xs generalizing x with
  | nil => exact le_refl x
  | cons a as ih =>
      calc x ≤ max x a := le_max_left _ _
        _ ≤ as.foldl max (max x a) := ih _

lemma mem_le_foldl_max (xs : List ℚ) (x y : ℚ) (hy : y ∈ xs) :
    y ≤ xs.foldl max x := by
  induction xs generalizing x with
  | nil => cases hy
  | cons a as ih =>
      rcases List.mem_cons.mp hy with rfl | h
      · exact le_trans (le_max_right x y) (init_le_foldl_max as _)
      · exact ih _ h

lemma foldl_max_mem (xs : List ℚ) (x : ℚ) :
    xs.foldl max x = x ∨ xs.foldl max x ∈ xs := by
  induction xs generalizing x with
  | nil => exact Or.inl rfl
  | cons a as ih =>
      rcases ih (max x a) with h | h
      · rcases max_choice x a with hm | hm
        · exact Or.inl (h.trans hm)
        · exact Or.inr (List.mem_cons.mpr (Or.inl (h.trans hm)))
      · exact Or.inr (List.mem_cons.mpr (Or.inr h))

lemma pyMin_le {l : List ℚ} {y : ℚ} (hy : y ∈ l) : pyMin l ≤ y := by
  cases l with
  | nil => cases hy
  | cons x xs =>
      rcases List.mem_cons.mp hy with rfl | h
      · exact foldl_min_le_init xs y
      · exact foldl_min_le_mem xs x y h

lemma pyMin_mem {l : List ℚ} (hne : l ≠ []) : pyMin l ∈ l := by
  cases l with
  | nil => exact absurd rfl hne
  | cons x xs =>
      rcases foldl_min_mem xs x with h | h
      · exact List.mem_cons.mpr (Or.inl h)
      · exact List.mem_cons.mpr (Or.inr h)

lemma le_pyMax {l : List ℚ} {y : ℚ} (hy : y ∈ l) : y ≤ pyMax l := by
  cases l with
  | nil => cases hy
  | cons x xs =>
      rcases List.mem_cons.mp hy with rfl | h
      · exact init_le_foldl_max xs y
      · exact mem_le_foldl_max xs x y h

lemma pyMax_mem {l : List ℚ} (hne : l ≠ []) : pyMax l ∈ l := by
  cases l with
  | nil => exact absurd rfl hne
  | cons x xs =>
      rcases foldl_max_mem xs x with h | h
      · exact List.mem_cons.mpr (Or.inl h)
      · exact List.mem_cons.mpr (Or.inr h)

/-- For a positive length and a ratio `0 ≤ p < 1`, the nearest-rank index
`int(n * p)` is strictly below `n`: Python's unclamped `results[...]`
indexing never goes out of range for p50, p95, p99. -/
lemma pctIndex_lt_length {n : ℕ} (hn : 0 < n) {p : ℚ} (hp1 : p < 1) :
    pctIndex n p < n := by
  unfold pctIndex
  have h : Int.floor ((n : ℚ) * p) < (n : ℤ) := by
    apply Int.floor_lt.mpr
    push_cast
    calc (n : ℚ) * p < (n : ℚ) * 1 :=
          mul_lt_mul_of_pos_left hp1 (by exact_mod_cast hn)
      _ = n := mul_one _
  omega

lemma pctIndex_mono (n : ℕ) {p q : ℚ} (h : p ≤ q) :
    pctIndex n p ≤ pctIndex n q := by
  unfold pctIndex
  have hm : (n : ℚ) * p ≤ (n : ℚ) * q :=
    mul_le_mul_of_nonneg_left h (by positivity)
  have := Int.floor_mono hm
  omega

lemma round2_mono {a b : ℚ} (h : a ≤ b) : round2 a ≤ round2 b := by
  unfold round2
  have h1 : round (a * 100) ≤ round (b * 100) := by
    rw [round_eq, round_eq]
    exact Int.floor_mono (by linarith)
  have h2 : ((round (a * 100) : ℤ) : ℚ) ≤ ((round (b * 100) : ℤ) : ℚ) :=
    Int.cast_le.mpr h1
  linarith

lemma sortResults_sorted (l : List ℚ) :
    (sortResults l).Sorted (· ≤ ·) :=
  List.sorted_insertionSort _ l

lemma sortResults_perm (l : List ℚ) : List.Perm (sortResults l) l :=
  List.perm_insertionSort _ l

lemma computeStats_eq (total errors : ℤ) (results : List ℚ) (tt : ℚ)
    (hne : results ≠ []) :
    computeStats total errors results tt = some
      { total_requests := total
        successful := total - errors
        failed := errors
        total_time_sec := round2 tt
        requests_per_sec := round2 (rawRps total tt)
        avg_response_ms := round2 (listMean (sortResults results))
        min_response_ms := round2 (pyMin (sortResults results))
        max_response_ms := round2 (pyMax (sortResults results))
        p50_ms := round2 ((sortResults results).getD
          (pctIndex (sortResults results).length (0.50 : ℚ)) 0)
        p95_ms := round2 ((sortResults results).getD
          (pctIndex (sortResults results).length (0.95 : ℚ)) 0)
        p99_ms := round2 ((sortResults results).getD
          (pctIndex (sortResults results).length (0.99 : ℚ)) 0) } := by
  unfold computeStats
  simp [hne]

lemma ne_nil_of_computeStats {total errors : ℤ} {results : List ℚ} {tt : ℚ}
    {s : Stats} (h : computeStats total errors results tt = some s) :
    results ≠ [] := by
  intro hr
  subst hr
  simp [computeStats] at h

/-- C2: `make_request` always returns an outcome (it is a total function
here because the source catches every exception); its `success` flag is
true exactly when a response with status code 200 was received; and the
elapsed wall-clock milliseconds are recorded in the outcome in every
branch: response, non-200 status, timeout or transport error alike. -/
theorem make_request_total_success_iff_200_and_time_recorded :
    (∀ (s : ℤ) (e : ℚ), (make_request (.response s) e).success = decide (s = 200)) ∧
    (∀ (m : String) (e : ℚ), (make_request (.exn m) e).success = false) ∧
    (∀ (r : HttpResult) (e : ℚ), (make_request r e).time = e) := by
  refine ⟨fun s e => ?_, fun m e => rfl, fun r e => ?_⟩
  · by_cases h : s = 200 <;> simp [make_request, h]
  · cases r <;> rfl

/- Concrete evaluations shared by witnesses and counterexamples. -/

/-- A three-request run: request 0 raises (30 ms elapsed), requests 1 and 2
return status 200 after 10 ms and 20 ms. -/
def reqB : ℕ → Outcome := fun i =>
  make_request (if i = 0 then HttpResult.exn "timed out" else HttpResult.response 200)
    (if i = 0 then 30 else if i = 1 then 10 else 20)

/-- The stats dict produced for times [30, 10, 20], 1 failure, 1 s wall time. -/
def statsB : Stats :=
  { total_requests := 3
    successful := 2
    failed := 1
    total_time_sec := 1
    requests_per_sec := 3
    avg_response_ms := 20
    min_response_ms := 10
    max_response_ms := 30
    p50_ms := 20
    p95_ms := 30
    p99_ms := 30 }

lemma sortResults_B : sortResults [(30 : ℚ), 10, 20] = [10, 20, 30] := by
  simp [sortResults, List.insertionSort, List.orderedInsert]
  norm_num

lemma computeStats_B : computeStats 3 1 [(30 : ℚ), 10, 20] 1 = some statsB := by
  rw [computeStats_eq 3 1 _ 1 (by simp), sortResults_B]
  unfold statsB
  norm_num [listMean, pyMin, pyMax, pctIndex, rawRps, round2, round_eq,
    show Int.toNat 2 = 2 from rfl, List.getD_cons_zero, List.getD_cons_succ]

lemma sortResults_example :
    sortResults [(10 : ℚ), 20, 30, 40, 50, 60, 70, 80, 90, 100] =
      [10, 20, 30, 40, 50, 60, 70, 80, 90, 100] := by
  simp [sortResults, List.insertionSort, List.orderedInsert]
  norm_num

/-- C1 counterexample: the claim says the reported p50 equals the element at
the nearest-rank index of the sorted elapsed list, but the source rounds
every reported field to 2 decimal places (`round(..., 2)`, line 98).  For
the outcome list [10.126] the element at the index is 10.126 while the
reported p50 is 10.13. -/
theorem percentile_unrounded_counterexample :
    (computeStats 1 0 [(10126 : ℚ) / 1000] 1).map (fun s => s.p50_ms) =
      some ((1013 : ℚ) / 100) ∧
    (sortResults [(10126 : ℚ) / 1000]).getD
      (pctIndex (sortResults [(10126 : ℚ) / 1000]).length (0.50 : ℚ)) 0 =
      (10126 : ℚ) / 1000 ∧
    ((1013 : ℚ) / 100) ≠ (10126 : ℚ) / 1000 := by
  refine ⟨?_, ?_, by norm_num⟩
  · rw [computeStats_eq 1 0 _ 1 (by simp),
      show sortResults [(10126 : ℚ) / 1000] = [(10126 : ℚ) / 1000] from rfl]
    norm_num [pctIndex, round2, round_eq, List.getD_cons_zero,
      show Int.toNat 0 = 0 from rfl]
  · rw [show sortResults [(10126 : ℚ) / 1000] = [(10126 : ℚ) / 1000] from rfl]
    norm_num [pctIndex, List.getD_cons_zero, show Int.toNat 0 = 0 from rfl]

/-- C1 (amended): for every non-empty outcome set, the reported p50, p95 and
p99 are the elements of the ascending-sorted elapsed list at index
`int(len * P/100)`, rounded to 2 decimal places like every reported field;
that index is strictly below the length for each of the three percentiles
(so the claim's clamping is vacuous and the source's unclamped indexing
never faults); and on the ten-element example [10..100] the reported p50 is
60 and the reported p95 is 100. -/
theorem percentile_nearest_rank :
    (∀ (total errors : ℤ) (results : List ℚ) (tt : ℚ) (s : Stats),
        computeStats total errors results tt = some s →
          (pctIndex (sortResults results).length (0.50 : ℚ) <
              (sortResults results).length ∧
           pctIndex (sortResults results).length (0.95 : ℚ) <
              (sortResults results).length ∧
           pctIndex (sortResults results).length (0.99 : ℚ) <
              (sortResults results).length) ∧
          s.p50_ms = round2 ((sortResults results).getD
            (pctIndex (sortResults results).length (0.50 : ℚ)) 0) ∧
          s.p95_ms = round2 ((sortResults results).getD
            (pctIndex (sortResults results).length (0.95 : ℚ)) 0) ∧
          s.p99_ms = round2 ((sortResults results).getD
            (pctIndex (sortResults results).length (0.99 : ℚ)) 0)) ∧
    (computeStats 10 0 [(10 : ℚ), 20, 30, 40, 50, 60, 70, 80, 90, 100] 1).map
        (fun s => (s.p50_ms, s.p95_ms)) = some ((60 : ℚ), (100 : ℚ)) := by
  constructor
  · intro total errors results tt s h
    have hne := ne_nil_of_computeStats h
    rw [computeStats_eq total errors results tt hne] at h
    obtain rfl : _ = s := Option.some.inj h
    have hlen : 0 < (sortResults results).length := by
      rw [(sortResults_perm results).length_eq]
      exact List.length_pos.mpr hne
    exact ⟨⟨pctIndex_lt_length hlen (by norm_num),
            pctIndex_lt_length hlen (by norm_num),
            pctIndex_lt_length hlen (by norm_num)⟩, rfl, rfl, rfl⟩
  · rw [computeStats_eq 10 0 _ 1 (by simp), sortResults_example]
    norm_num [pctIndex, round2, round_eq, List.getD_cons_zero, List.getD_cons_succ,
      show Int.toNat 5 = 5 from rfl, show Int.toNat 9 = 9 from rfl]

/-- Witness for C1's amended general part, at the three-request reduction. -/
theorem percentile_nearest_rank_witness :
    computeStats 3 1 [(30 : ℚ), 10, 20] 1 = some statsB ∧
    ((pctIndex (sortResults [(30 : ℚ), 10, 20]).length (0.50 : ℚ) <
        (sortResults [(30 : ℚ), 10, 20]).length ∧
      pctIndex (sortResults [(30 : ℚ), 10, 20]).length (0.95 : ℚ) <
        (sortResults [(30 : ℚ), 10, 20]).length ∧
      pctIndex (sortResults [(30 : ℚ), 10, 20]).length (0.99 : ℚ) <
        (sortResults [(30 : ℚ), 10, 20]).length) ∧
     statsB.p50_ms = round2 ((sortResults [(30 : ℚ), 10, 20]).getD
       (pctIndex (sortResults [(30 : ℚ), 10, 20]).length (0.50 : ℚ)) 0) ∧
     statsB.p95_ms = round2 ((sortResults [(30 : ℚ), 10, 20]).getD
       (pctIndex (sortResults [(30 : ℚ), 10, 20]).length (0.95 : ℚ)) 0) ∧
     statsB.p99_ms = round2 ((sortResults [(30 : ℚ), 10, 20]).getD
       (pctIndex (sortResults [(30 : ℚ), 10, 20]).length (0.99 : ℚ)) 0)) :=
  ⟨computeStats_B,
   percentile_nearest_rank.1 3 1 [(30 : ℚ), 10, 20] 1 statsB computeStats_B⟩

lemma getD_mem {l : List ℚ} {i : ℕ} (hi : i < l.length) : l.getD i 0 ∈ l := by
  rw [List.getD_eq_getElem l 0 hi]
  exact List.getElem_mem hi

lemma sorted_getD_mono {l : List ℚ} (hs : l.Sorted (· ≤ ·)) {i j : ℕ}
    (hij : i ≤ j) (hj : j < l.length) : l.getD i 0 ≤ l.getD j 0 := by
  have hi : i < l.length := Nat.lt_of_le_of_lt hij hj
  rw [List.getD_eq_getElem l 0 hi, List.getD_eq_getElem l 0 hj]
  exact hs.rel_get_of_le (Fin.mk_le_mk.mpr hij)

/-- C4: for every non-empty outcome set, the latency fields of the produced
statistics are ordered: min ≤ p50 ≤ p95 ≤ p99 ≤ max. -/
theorem latency_stats_monotone (total errors : ℤ) (results : List ℚ) (tt : ℚ)
    (s : Stats) (h : computeStats total errors results tt = some s) :
    s.min_response_ms ≤ s.p50_ms ∧ s.p50_ms ≤ s.p95_ms ∧
    s.p95_ms ≤ s.p99_ms ∧ s.p99_ms ≤ s.max_response_ms := by
  have hne := ne_nil_of_computeStats h
  rw [computeStats_eq total errors results tt hne] at h
  obtain rfl : _ = s := Option.some.inj h
  have hs : (sortResults results).Sorted (· ≤ ·) := sortResults_sorted results
  have hlen : 0 < (sortResults results).length := by
    rw [(sortResults_perm results).length_eq]
    exact List.length_pos.mpr hne
  have h50 : pctIndex (sortResults results).length (0.50 : ℚ) <
      (sortResults results).length := pctIndex_lt_length hlen (by norm_num)
  have h95 : pctIndex (sortResults results).length (0.95 : ℚ) <
      (sortResults results).length := pctIndex_lt_length hlen (by norm_num)
  have h99 : pctIndex (sortResults results).length (0.99 : ℚ) <
      (sortResults results).length := pctIndex_lt_length hlen (by norm_num)
  refine ⟨round2_mono ?_, round2_mono ?_, round2_mono ?_, round2_mono ?_⟩
  · exact pyMin_le (getD_mem h50)
  · exact sorted_getD_mono hs (pctIndex_mono _ (by norm_num)) h95
  · exact sorted_getD_mono hs (pctIndex_mono _ (by norm_num)) h99
  · exact le_pyMax (getD_mem h99)

/-- Witness for C4 at the concrete three-request reduction. -/
theorem latency_stats_monotone_witness :
    computeStats 3 1 [(30 : ℚ), 10, 20] 1 = some statsB ∧
    (statsB.min_response_ms ≤ statsB.p50_ms ∧ statsB.p50_ms ≤ statsB.p95_ms ∧
     statsB.p95_ms ≤ statsB.p99_ms ∧ statsB.p99_ms ≤ statsB.max_response_ms) :=
  ⟨computeStats_B, latency_stats_monotone 3 1 [(30 : ℚ), 10, 20] 1 statsB computeStats_B⟩

lemma listMean_perm {l l' : List ℚ} (h : List.Perm l l') :
    listMean l = listMean l' := by
  unfold listMean
  rw [h.sum_eq, h.length_eq]

lemma run_B : run_load_test 2 3 reqB 1 = Except.ok (some statsB) := by
  have h : run_load_test 2 3 reqB 1 =
      Except.ok (computeStats 3 1 [(30 : ℚ), 10, 20] 1) := rfl
  rw [h, computeStats_B]

/-- C3 counterexample: the claim says the reported average equals the
arithmetic mean of the elapsed values, but the source reports
`round(statistics.mean(results), 2)` (line 95).  For elapsed values
[1, 1, 2] the mean is 4/3 while the reported average is 1.33. -/
theorem avg_unrounded_counterexample :
    (computeStats 3 0 [(1 : ℚ), 1, 2] 1).map (fun s => s.avg_response_ms) =
      some ((133 : ℚ) / 100) ∧
    listMean [(1 : ℚ), 1, 2] = 4 / 3 ∧
    ((133 : ℚ) / 100) ≠ 4 / 3 := by
  refine ⟨?_, by norm_num [listMean], by norm_num⟩
  rw [computeStats_eq 3 0 _ 1 (by simp),
    show sortResults [(1 : ℚ), 1, 2] = [(1 : ℚ), 1, 2] by decide]
  norm_num [listMean, round2, round_eq]

/-- C3 (amended): for every run whose reducer produces statistics, the
reported average is the arithmetic mean of the elapsed values of all
collected outcomes — failures included — rounded to 2 decimal places, and
the reported min (resp. max) is the smallest (resp. largest) elapsed value
over that same set, rounded to 2 decimal places. -/
theorem avg_min_max_over_all_outcomes (c t : ℤ) (req : ℕ → Outcome) (tt : ℚ)
    (s : Stats) (h : run_load_test c t req tt = Except.ok (some s)) :
    s.avg_response_ms = round2 (listMean (allTimes t req)) ∧
    (∃ m ∈ allTimes t req, (∀ y ∈ allTimes t req, m ≤ y) ∧
      s.min_response_ms = round2 m) ∧
    (∃ M ∈ allTimes t req, (∀ y ∈ allTimes t req, y ≤ M) ∧
      s.max_response_ms = round2 M) := by
  by_cases hc : c ≤ 0
  · simp [run_load_test, hc] at h
  · rw [run_load_test, if_neg hc] at h
    have hcs : computeStats t (countErrors (outcomesOf t req))
        (allTimes t req) tt = some s := Except.ok.inj h
    have hne := ne_nil_of_computeStats hcs
    rw [computeStats_eq _ _ _ _ hne] at hcs
    obtain rfl : _ = s := Option.some.inj hcs
    have hperm := sortResults_perm (allTimes t req)
    have hsne : sortResults (allTimes t req) ≠ [] := by
      intro h0
      apply hne
      have hl := hperm.length_eq
      rw [h0] at hl
      exact List.length_eq_zero.mp hl.symm
    refine ⟨?_, ?_, ?_⟩
    · show round2 (listMean (sortResults (allTimes t req))) =
        round2 (listMean (allTimes t req))
      exact congrArg round2 (listMean_perm hperm)
    · exact ⟨pyMin (sortResults (allTimes t req)),
        hperm.mem_iff.mp (pyMin_mem hsne),
        fun y hy => pyMin_le (hperm.mem_iff.mpr hy), rfl⟩
    · exact ⟨pyMax (sortResults (allTimes t req)),
        hperm.mem_iff.mp (pyMax_mem hsne),
        fun y hy => le_pyMax (hperm.mem_iff.mpr hy), rfl⟩

/-- Witness for C3's amended claim on the concrete three-request run
(one failed request with the largest elapsed time, two successes). -/
theorem avg_min_max_over_all_outcomes_witness :
    run_load_test 2 3 reqB 1 = Except.ok (some statsB) ∧
    (statsB.avg_response_ms = round2 (listMean (allTimes 3 reqB)) ∧
     (∃ m ∈ allTimes 3 reqB, (∀ y ∈ allTimes 3 reqB, m ≤ y) ∧
       statsB.min_response_ms = round2 m) ∧
     (∃ M ∈ allTimes 3 reqB, (∀ y ∈ allTimes 3 reqB, y ≤ M) ∧
       statsB.max_response_ms = round2 M)) :=
  ⟨run_B, avg_min_max_over_all_outcomes 2 3 reqB 1 statsB run_B⟩

/-- C5: for statistics pairs with a non-zero baseline, the comparison
computes `throughput_delta_pct = (candidate - baseline) / baseline * 100`
on the requests-per-second fields and
`avg_latency_delta_pct = (baseline - candidate) / baseline * 100` on the
average-latency fields — the two intentionally asymmetric sign conventions
of the source — and with baseline rps 100 and candidate rps 150 the
throughput delta is +50. -/
theorem comparison_delta_formulas :
    (∀ b c : ℚ, b ≠ 0 →
        throughput_delta_pct b c = some ((c - b) / b * 100) ∧
        avg_latency_delta_pct b c = some ((b - c) / b * 100)) ∧
    throughput_delta_pct 100 150 = some 50 := by
  constructor
  · intro b c hb
    exact ⟨by simp only [throughput_delta_pct, if_neg hb],
           by simp only [avg_latency_delta_pct, if_neg hb]⟩
  · simp only [throughput_delta_pct,
      if_neg (by norm_num : ¬((100 : ℚ) = 0))]
    norm_num

/-- Witness for C5: the deltas at baseline rps 100 / candidate rps 150 and
baseline latency 100 ms / candidate latency 80 ms. -/
theorem comparison_delta_formulas_witness :
    throughput_delta_pct 100 150 = some ((150 - 100) / 100 * 100) ∧
    avg_latency_delta_pct 100 80 = some ((100 - 80) / 100 * 100) :=
  ⟨(comparison_delta_formulas.1 100 150 (by norm_num)).1,
   (comparison_delta_formulas.1 100 80 (by norm_num)).2⟩

/-- C6 counterexample: with a zero baseline the comparison does not report
an undefined/NaN delta — the division in the source is unguarded, so
Python raises ZeroDivisionError and no delta value is produced (`none`). -/
theorem comparison_zero_baseline_counterexample :
    throughput_delta_pct 0 150 = none ∧ avg_latency_delta_pct 0 20 = none := by
  constructor <;> rfl

/-- C6 (amended): whenever the baseline value is zero, the comparison's
unguarded division raises ZeroDivisionError — modelled as producing no
value — for both the throughput delta and the average-latency delta; no
NaN/undefined delta is reported. -/
theorem comparison_zero_baseline_raises (c : ℚ) :
    throughput_delta_pct 0 c = none ∧ avg_latency_delta_pct 0 c = none := by
  constructor <;> rfl

/-- C7 counterexample: with total_requests = 0 and positive concurrency the
runner does not abort with any InvalidConfig error — it runs to completion,
collects zero outcomes, and returns the no-results value None. -/
theorem no_config_validation_counterexample :
    run_load_test 100 0 (fun _ => make_request (HttpResult.response 200) 5) 1 =
      Except.ok none := rfl

/-- C7 (amended): the source performs no configuration validation and has
no InvalidConfig error.  A non-positive concurrency makes the thread-pool
construction raise ValueError before any request is issued; a non-positive
total_requests with positive concurrency is not rejected — the run
completes normally and returns the absent-statistics value None. -/
theorem no_config_validation (c t : ℤ) (req : ℕ → Outcome) (tt : ℚ) :
    (c ≤ 0 → run_load_test c t req tt = Except.error RunError.poolValueError) ∧
    (0 < c → t ≤ 0 → run_load_test c t req tt = Except.ok none) := by
  constructor
  · intro hc
    rw [run_load_test, if_pos hc]
  · intro hc ht
    rw [run_load_test, if_neg (not_le.mpr hc)]
    have h0 : t.toNat = 0 := Int.toNat_of_nonpos ht
    have ho : outcomesOf t req = [] := by simp [outcomesOf, h0]
    simp [allTimes, ho, computeStats]

/-- Witness for C7 at concurrency 0 (pool construction fails) and at
concurrency 2 with total 0 (run returns None). -/
theorem no_config_validation_witness :
    ((0 : ℤ) ≤ 0 ∧
      run_load_test 0 5 reqB 1 = Except.error RunError.poolValueError) ∧
    ((0 : ℤ) < 2 ∧ (0 : ℤ) ≤ 0 ∧
      run_load_test 2 0 reqB 1 = Except.ok none) :=
  ⟨⟨le_refl 0, (no_config_validation 0 5 reqB 1).1 (le_refl 0)⟩,
   ⟨by norm_num, le_refl 0,
    (no_config_validation 2 0 reqB 1).2 (by norm_num) (le_refl 0)⟩⟩

/-- C8 counterexample: the reported requests_per_second is not exactly
total_requests divided by the wall time — the source rounds it to 2
decimal places (line 94).  For 1 request over 3 seconds the quotient is
1/3 but the reported value is 0.33. -/
theorem rps_unrounded_counterexample :
    (computeStats 1 0 [(5 : ℚ)] 3).map (fun s => s.requests_per_sec) =
      some ((33 : ℚ) / 100) ∧
    rawRps 1 3 = 1 / 3 ∧
    ((33 : ℚ) / 100) ≠ 1 / 3 := by
  refine ⟨?_, by norm_num [rawRps], by norm_num⟩
  rw [computeStats_eq 1 0 _ 3 (by simp)]
  norm_num [rawRps, round2, round_eq]

/-- C8 (amended): the reported requests_per_second is total_requests
divided by the measured wall-clock seconds, rounded to 2 decimal places;
the unrounded quotient halves exactly when the wall time doubles. -/
theorem rps_formula (total errors : ℤ) (results : List ℚ) (tt : ℚ) (s : Stats)
    (h : computeStats total errors results tt = some s) :
    s.requests_per_sec = round2 (rawRps total tt) ∧
    rawRps total (2 * tt) = rawRps total tt / 2 := by
  constructor
  · have hne := ne_nil_of_computeStats h
    rw [computeStats_eq total errors results tt hne] at h
    obtain rfl : _ = s := Option.some.inj h
    rfl
  · unfold rawRps
    rw [div_div, mul_comm]

/-- Witness for C8 at the concrete three-request reduction. -/
theorem rps_formula_witness :
    computeStats 3 1 [(30 : ℚ), 10, 20] 1 = some statsB ∧
    (statsB.requests_per_sec = round2 (rawRps 3 1) ∧
     rawRps 3 (2 * 1) = rawRps 3 1 / 2) :=
  ⟨computeStats_B, rps_formula 3 1 [(30 : ℚ), 10, 20] 1 statsB computeStats_B⟩

/-- C10: every numeric field of the returned statistics — total time,
requests per second, average, min, max, p50, p95 and p99 — is the
2-decimal-place rounding of the corresponding raw computed value, and
`round2` always produces an integer multiple of 1/100, so callers receive
rounded values rather than the raw quotients. -/
theorem all_numeric_fields_rounded (total errors : ℤ) (results : List ℚ)
    (tt : ℚ) (s : Stats) (h : computeStats total errors results tt = some s) :
    (s.total_time_sec = round2 tt ∧
     s.requests_per_sec = round2 (rawRps total tt) ∧
     s.avg_response_ms = round2 (listMean (sortResults results)) ∧
     s.min_response_ms = round2 (pyMin (sortResults results)) ∧
     s.max_response_ms = round2 (pyMax (sortResults results)) ∧
     s.p50_ms = round2 ((sortResults results).getD
       (pctIndex (sortResults results).length (0.50 : ℚ)) 0) ∧
     s.p95_ms = round2 ((sortResults results).getD
       (pctIndex (sortResults results).length (0.95 : ℚ)) 0) ∧
     s.p99_ms = round2 ((sortResults results).getD
       (pctIndex (sortResults results).length (0.99 : ℚ)) 0)) ∧
    (∀ q : ℚ, ∃ k : ℤ, round2 q = (k : ℚ) / 100) := by
  have hne := ne_nil_of_computeStats h
  rw [computeStats_eq total errors results tt hne] at h
  obtain rfl : _ = s := Option.some.inj h
  exact ⟨⟨rfl, rfl, rfl, rfl, rfl, rfl, rfl, rfl⟩,
    fun q => ⟨round (q * 100), rfl⟩⟩

/-- Witness for C10 at the concrete three-request reduction. -/
theorem all_numeric_fields_rounded_witness :
    computeStats 3 1 [(30 : ℚ), 10, 20] 1 = some statsB ∧
    statsB.total_time_sec = round2 1 ∧
    statsB.requests_per_sec = round2 (rawRps 3 1) ∧
    statsB.avg_response_ms =
      round2 (listMean (sortResults [(30 : ℚ), 10, 20])) :=
  ⟨computeStats_B,
   (all_numeric_fields_rounded 3 1 [(30 : ℚ), 10, 20] 1 statsB
     computeStats_B).1.1,
   (all_numeric_fields_rounded 3 1 [(30 : ℚ), 10, 20] 1 statsB
     computeStats_B).1.2.1,
   (all_numeric_fields_rounded 3 1 [(30 : ℚ), 10, 20] 1 statsB
     computeStats_B).1.2.2.1⟩

end LoadTest
